import Mathlib

/-!
Shallow embedding of `src/soap_retrieve.py` (class `SoapRetrieve`) and its
subclass in `src/soap_vincidia.py`.

The Python code drives a paginated SOAP retrieval:
  * `submit_request` (decorated with tenacity
    `@retry(stop=stop_after_attempt(SfmcConfig.max_retries),
            retry=retry_if_exception_type(IngestServiceException))`)
    performs one transport call, classifies the response, and on a
    non-error status `asyncio.gather`s the caller's `response_callback`
    with `_submit_next_request`;
  * `_submit_next_request` recurses into `submit_request` when
    `OverallStatus == 'MoreDataAvailable'`, unless `is_it_time_to_pause()`
    is true, in which case it emits a pause dict to `pause_callback`;
  * `resume_request` rebuilds a continuation request from a pause dict and
    calls `submit_request`;
  * `build_common_request` builds the initial filtered request.

The embedding is an interpreter: the external world (transport outcomes per
call, pause decisions per pagination boundary, the opaque oauth pause blob)
is an `Env` of oracles consumed through monotone counters in `World`; the
observable behaviour is the list of emitted `Event`s (handler invocations
and pause emissions) plus a final `Outcome`.  Recursion is bounded by an
explicit fuel counting transport calls; every run that the theorems mention
is given enough fuel, and exhaustion is a distinguished model-only outcome.
-/

/-- Exceptions that the transport layer (`zeep`/`aiohttp`) may raise from
`self.zeep_client.service.Retrieve(...)`.  The five named constructors are
the types listed in the `except` clause at `soap_retrieve.py:59`; `other`
stands for any exception not in that list. -/
inductive PyExc where
  | clientResponseError
  | clientConnectionError
  | serverTimeoutError
  | clientError
  | asyncioTimeoutError
  | other (name : String)
deriving DecidableEq, Repr

/-- Whether the `except (ClientResponseError, ClientConnectionError,
ServerTimeoutError, ClientError, asyncio.TimeoutError)` clause at
`soap_retrieve.py:59` catches the exception. -/
def caught_by_transport_handler : PyExc → Bool
  | .other _ => false
  | _ => true

/-- Errors surfaced by a (decorated) `submit_request` call, mirroring the
Python exception classes that can escape it. -/
inductive Err where
  /-- `IngestServiceException('SOAP Service Fail', 0, err)` raised at
  `soap_retrieve.py:62`, carrying the causing transport exception. -/
  | serviceFail (cause : PyExc)
  /-- `tenacity.RetryError` raised by the `@retry` wrapper once
  `stop_after_attempt(max_retries)` is reached (tenacity's default
  `reraise=False`); it wraps the last attempt's `IngestServiceException`,
  whose transport cause is recorded here. -/
  | retryError (lastCause : PyExc)
  /-- `IngestDataRetrieveException(msg)` raised at `soap_retrieve.py:65`
  (status key absent) or `soap_retrieve.py:68` (status starts with
  `'Error'`); `msg` keeps the literal message prefix of the f-string. -/
  | dataRetrieve (msg : String)
  /-- A transport exception not listed in the `except` clause: it
  propagates unmodified. -/
  | uncaught (e : PyExc)
  /-- Model-only: the fuel bound on transport calls was reached. -/
  | outOfFuel
deriving DecidableEq, Repr

/-- How the `try/except` around the transport call re-signals a transport
exception (`soap_retrieve.py:56-62`): the listed exception types become an
`IngestServiceException` (the kind the retry wrapper recognizes), anything
else propagates unmodified. -/
def classify_transport_error (e : PyExc) : Err :=
  if caught_by_transport_handler e then .serviceFail e else .uncaught e

/-- Python's `str.startswith(p)`: the characters of `p` are a prefix of the
characters of `s` (used at `soap_retrieve.py:67` with `p = 'Error'`). -/
def startswith (s p : String) : Bool := p.data.isPrefixOf s.data

/-- A SOAP response as observed by `submit_request`: the `OverallStatus`
key may be absent (`none`); `RequestID` is the continuation token read at
`soap_retrieve.py:84,87`. -/
structure Response where
  OverallStatus : Option String
  RequestID : String
deriving DecidableEq, Repr

/-- Outcome of one transport call: either an exception or a response. -/
inductive TransportResult where
  | err (e : PyExc)
  | resp (r : Response)
deriving DecidableEq, Repr

/-- The external world: the `i`-th transport call's outcome, the decision
`is_it_time_to_pause()` returns at the `j`-th pagination boundary, and the
opaque blob `Oauth2Request.pause_extract()` yields. -/
structure Env where
  transport : Nat → TransportResult
  pause : Nat → Bool
  oauthCtx : String

/-- Consumption counters into the `Env` oracles: `t` transport calls made,
`p` pause decisions consulted so far. -/
structure World where
  t : Nat
  p : Nat
deriving DecidableEq, Repr

/-- The dict handed to `pause_callback` at `soap_retrieve.py:82-84`:
`{'oauth': ..., 'object_type': ..., 'continue_request': ...}`.  `oauth` is
optional because `resume_request` checks `'oauth' in paused`. -/
structure PausedState where
  oauth : Option String
  object_type : String
  continue_request : String
deriving DecidableEq, Repr

/-- Observable callback events of a run: one `handler` per
`response_callback(response)` dispatch, one `paused` per
`pause_callback(...)` dispatch. -/
inductive Event where
  | handler (r : Response)
  | paused (ps : PausedState)
deriving DecidableEq, Repr

/-- Result of a (decorated) `submit_request` call: returns normally or
raises. -/
inductive Outcome where
  | ok
  | error (e : Err)
deriving DecidableEq, Repr

/-- A filter part `ns0:SimpleFilterPart` as built at
`soap_retrieve.py:124-125`.  Datetimes are modelled as `Int` seconds since
the UTC epoch. -/
structure SimpleFilterPart where
  Property : String
  SimpleOperator : String
  DateValueLo : Int
  DateValueHi : Int
deriving DecidableEq, Repr

/-- A `ns0:RetrieveRequest`, with the keyword arguments the Python code
ever sets; an unset argument is `none` / `[]`. -/
structure Request where
  ObjectType : String
  Properties : List String
  Filter : Option SimpleFilterPart
  ContinueRequest : Option String
deriving DecidableEq, Repr

/-- The continuation request built at `soap_retrieve.py:87`:
`req_base(ObjectType=request.ObjectType, ContinueRequest=response['RequestID'])`. -/
def continuation_request (objectType : String) (token : String) : Request :=
  ⟨objectType, [], none, some token⟩

/-- Everything a run of a (decorated) `submit_request` produces: the
emitted events in order, the final oracle counters, and the outcome. -/
structure RunOut where
  events : List Event
  world : World
  result : Outcome
deriving DecidableEq, Repr

/-- Interpreter for the tenacity-decorated `submit_request`
(`soap_retrieve.py:47-88`).  `maxAttempts` is `SfmcConfig.max_retries`
(the `stop_after_attempt` bound); `attempts` is the number of attempts the
current decorated call may still make (initially `maxAttempts`); `fuel`
bounds the total number of transport calls (model artifact).

Per attempt: make the transport call; a caught transport exception becomes
an `IngestServiceException`, which the `@retry` wrapper retries until the
attempt budget is exhausted, at which point a `tenacity.RetryError`
carrying the last cause is raised; an uncaught exception propagates.  On a
response: missing `OverallStatus` or an `Error`-prefixed status raises
`IngestDataRetrieveException` (no event emitted, never retried).
Otherwise `asyncio.gather` dispatches the handler and
`_submit_next_request`: when the status is exactly `'MoreDataAvailable'`,
the boundary consults `is_it_time_to_pause()` and either emits a
`PausedState` or recursively submits the continuation request (a fresh
decorated call, so its attempt budget resets); any other status is
terminal. -/
def run (env : Env) (maxAttempts : Nat) :
    Nat → Nat → Request → World → RunOut
  | 0, _, _, w => ⟨[], w, .error .outOfFuel⟩
  | Nat.succ fuel, attempts, req, w =>
    match env.transport w.t with
    | .err e =>
      match classify_transport_error e with
      | .serviceFail c =>
        if attempts ≤ 1 then ⟨[], ⟨w.t + 1, w.p⟩, .error (.retryError c)⟩
        else run env maxAttempts fuel (attempts - 1) req ⟨w.t + 1, w.p⟩
      | errv => ⟨[], ⟨w.t + 1, w.p⟩, .error errv⟩
    | .resp r =>
      match r.OverallStatus with
      | none => ⟨[], ⟨w.t + 1, w.p⟩, .error (.dataRetrieve "Invalid Response")⟩
      | some st =>
        if startswith st "Error" then
          ⟨[], ⟨w.t + 1, w.p⟩,
            .error (.dataRetrieve ("Status Error in Response " ++ st))⟩
        else if st = "MoreDataAvailable" then
          if env.pause w.p then
            ⟨[.handler r, .paused ⟨some env.oauthCtx, req.ObjectType, r.RequestID⟩],
              ⟨w.t + 1, w.p + 1⟩, .ok⟩
          else
            let out := run env maxAttempts fuel maxAttempts
              (continuation_request req.ObjectType r.RequestID) ⟨w.t + 1, w.p + 1⟩
            ⟨.handler r :: out.events, out.world, out.result⟩
        else ⟨[.handler r], ⟨w.t + 1, w.p⟩, .ok⟩
termination_by structural fuel _ _ _ => fuel

/-- Retrieval configuration: `SfmcConfig.max_retries` (the backoff delays of
`wait_random_exponential` affect timing only, not the observable trace). -/
structure Config where
  max_retries : Nat
deriving DecidableEq, Repr

/-- A call to the decorated `submit_request` from outside: the attempt
budget starts at `max_retries`. -/
def submit_request (env : Env) (cfg : Config) (fuel : Nat)
    (req : Request) (w : World) : RunOut :=
  run env cfg.max_retries fuel cfg.max_retries req w

/-- The request `resume_request` rebuilds at `soap_retrieve.py:99`:
`req_base(ObjectType=paused['object_type'], ContinueRequest=paused['continue_request'])`
— no `Properties`, no `Filter`. -/
def resume_rebuild (paused : PausedState) : Request :=
  ⟨paused.object_type, [], none, some paused.continue_request⟩

/-- `resume_request` (`soap_retrieve.py:90-100`): after restoring the oauth
context (an external effect with no observable trace here), submit the
rebuilt continuation request. -/
def resume_request (env : Env) (cfg : Config) (fuel : Nat)
    (paused : PausedState) (w : World) : RunOut :=
  submit_request env cfg fuel (resume_rebuild paused) w

/-- A Python value passed for `start_datetime` / `end_datetime`: `None`, a
non-`datetime` value, or a `datetime` (as seconds since the UTC epoch). -/
inductive PyVal where
  | noneV
  | notDatetime
  | dt (d : Int)
deriving DecidableEq, Repr

/-- `datetime(1970, 1, 1, 0, 0, 0, 0).replace(tzinfo=pytz.utc)` at
`soap_retrieve.py:117`, as seconds since the UTC epoch. -/
def epoch_origin : Int := 0

/-- The `if not isinstance(start_datetime, datetime)` default at
`soap_retrieve.py:116-117`. -/
def coerce_start (s : PyVal) : Int :=
  match s with
  | .dt d => d
  | _ => epoch_origin

/-- The `if not isinstance(end_datetime, datetime)` default at
`soap_retrieve.py:118-119`; `now` is `datetime.utcnow()`. -/
def coerce_end (now : Int) (e : PyVal) : Int :=
  match e with
  | .dt d => d
  | _ => now

/-- `build_common_request` (`soap_retrieve.py:102-127`): defaults the
bounds, attaches a `between` filter on `filter_date_field` when that field
is truthy (a non-`None`, non-empty string), and builds the request. -/
def build_common_request (now : Int) (object_type : String)
    (properties : List String) (start_datetime end_datetime : PyVal)
    (filter_date_field : Option String) : Request :=
  let s := coerce_start start_datetime
  let e := coerce_end now end_datetime
  let simplefilter : Option SimpleFilterPart :=
    match filter_date_field with
    | some fd => if fd = "" then none else some ⟨fd, "between", s, e⟩
    | none => none
  ⟨object_type, properties, simplefilter, none⟩

/-- The handler invocations in an event trace, in order. -/
def handlerEvents (evs : List Event) : List Response :=
  evs.filterMap fun ev =>
    match ev with
    | .handler r => some r
    | _ => none

/-- The pause emissions in an event trace, in order. -/
def pausedEvents (evs : List Event) : List PausedState :=
  evs.filterMap fun ev =>
    match ev with
    | .paused ps => some ps
    | _ => none

/-- Whether an outcome is a bare `IngestServiceException` (the
transient-failure kind). -/
def isServiceFail : Outcome → Bool
  | .error (.serviceFail _) => true
  | _ => false

/-! ### Basic facts about the embedding -/

theorem startswith_success : startswith "Success" "Error" = false := by decide

theorem startswith_mda : startswith "MoreDataAvailable" "Error" = false := by decide

@[simp] theorem pausedEvents_nil : pausedEvents [] = [] := rfl

@[simp] theorem pausedEvents_handler (r : Response) (evs : List Event) :
    pausedEvents (.handler r :: evs) = pausedEvents evs := rfl

@[simp] theorem pausedEvents_paused (ps : PausedState) (evs : List Event) :
    pausedEvents (.paused ps :: evs) = ps :: pausedEvents evs := rfl

@[simp] theorem handlerEvents_nil : handlerEvents [] = [] := rfl

@[simp] theorem handlerEvents_handler (r : Response) (evs : List Event) :
    handlerEvents (.handler r :: evs) = r :: handlerEvents evs := rfl

@[simp] theorem handlerEvents_paused (ps : PausedState) (evs : List Event) :
    handlerEvents (.paused ps :: evs) = handlerEvents evs := rfl

/-! ### One-step unfolding lemmas for `run`, one per branch of
`submit_request` / `_submit_next_request` -/

/-- A caught transport exception with at least two attempts left: the retry
wrapper runs the attempt again (events of the failed attempt: none). -/
theorem run_step_retry (env : Env) (m fuel a t p : Nat) (req : Request)
    (e : PyExc) (hT : env.transport t = .err e)
    (hc : caught_by_transport_handler e = true) (ha : 2 ≤ a) :
    run env m (fuel + 1) a req ⟨t, p⟩ = run env m fuel (a - 1) req ⟨t + 1, p⟩ := by
  have hcl : classify_transport_error e = .serviceFail e := by
    simp [classify_transport_error, hc]
  simp only [run, hT, hcl]
  rw [if_neg (by omega)]

/-- A caught transport exception on the last allowed attempt: the wrapper
raises `tenacity.RetryError` carrying that last cause. -/
theorem run_step_exhaust (env : Env) (m fuel a t p : Nat) (req : Request)
    (e : PyExc) (hT : env.transport t = .err e)
    (hc : caught_by_transport_handler e = true) (ha : a ≤ 1) :
    run env m (fuel + 1) a req ⟨t, p⟩ =
      ⟨[], ⟨t + 1, p⟩, .error (.retryError e)⟩ := by
  have hcl : classify_transport_error e = .serviceFail e := by
    simp [classify_transport_error, hc]
  simp only [run, hT, hcl]
  rw [if_pos (by omega)]

/-- An uncaught transport exception propagates unmodified; no retry. -/
theorem run_step_uncaught (env : Env) (m fuel a t p : Nat) (req : Request)
    (e : PyExc) (hT : env.transport t = .err e)
    (hc : caught_by_transport_handler e = false) :
    run env m (fuel + 1) a req ⟨t, p⟩ =
      ⟨[], ⟨t + 1, p⟩, .error (.uncaught e)⟩ := by
  have hcl : classify_transport_error e = .uncaught e := by
    simp [classify_transport_error, hc]
  simp only [run, hT, hcl]

/-- A response without the `OverallStatus` key:
`IngestDataRetrieveException`, no handler dispatch, no retry. -/
theorem run_step_no_status (env : Env) (m fuel a t p : Nat) (req : Request)
    (r : Response) (hT : env.transport t = .resp r)
    (hs : r.OverallStatus = none) :
    run env m (fuel + 1) a req ⟨t, p⟩ =
      ⟨[], ⟨t + 1, p⟩, .error (.dataRetrieve "Invalid Response")⟩ := by
  simp only [run, hT, hs]

/-- A response whose status starts with `'Error'`:
`IngestDataRetrieveException` carrying the status text, no handler
dispatch, no retry. -/
theorem run_step_error_status (env : Env) (m fuel a t p : Nat)
    (req : Request) (r : Response) (st : String)
    (hT : env.transport t = .resp r) (hs : r.OverallStatus = some st)
    (he : startswith st "Error" = true) :
    run env m (fuel + 1) a req ⟨t, p⟩ =
      ⟨[], ⟨t + 1, p⟩, .error (.dataRetrieve ("Status Error in Response " ++ st))⟩ := by
  simp only [run, hT, hs, he, if_true]

/-- A response with any non-error status other than `'MoreDataAvailable'`
is terminal: one handler dispatch, return. -/
theorem run_step_terminal (env : Env) (m fuel a t p : Nat) (req : Request)
    (r : Response) (st : String)
    (hT : env.transport t = .resp r) (hs : r.OverallStatus = some st)
    (he : startswith st "Error" = false) (hm : st ≠ "MoreDataAvailable") :
    run env m (fuel + 1) a req ⟨t, p⟩ = ⟨[.handler r], ⟨t + 1, p⟩, .ok⟩ := by
  simp only [run, hT, hs, he]
  rw [if_neg (by simp), if_neg hm]

/-- `'MoreDataAvailable'` at a boundary where `is_it_time_to_pause()` is
true: handler dispatch plus exactly one `PausedState` emission, then
return — page `k+1` is not submitted. -/
theorem run_step_pause (env : Env) (m fuel a t p : Nat) (req : Request)
    (r : Response)
    (hT : env.transport t = .resp r)
    (hs : r.OverallStatus = some "MoreDataAvailable")
    (hp : env.pause p = true) :
    run env m (fuel + 1) a req ⟨t, p⟩ =
      ⟨[.handler r, .paused ⟨some env.oauthCtx, req.ObjectType, r.RequestID⟩],
        ⟨t + 1, p + 1⟩, .ok⟩ := by
  simp only [run, hT, hs, startswith_mda]
  simp [hp]

/-- `'MoreDataAvailable'` at a boundary where `is_it_time_to_pause()` is
false: handler dispatch concurrent with a fresh decorated submission of the
continuation request (attempt budget reset to `m`). -/
theorem run_step_continue (env : Env) (m fuel a t p : Nat) (req : Request)
    (r : Response)
    (hT : env.transport t = .resp r)
    (hs : r.OverallStatus = some "MoreDataAvailable")
    (hp : env.pause p = false) :
    run env m (fuel + 1) a req ⟨t, p⟩ =
      ⟨.handler r ::
          (run env m fuel m (continuation_request req.ObjectType r.RequestID)
            ⟨t + 1, p + 1⟩).events,
        (run env m fuel m (continuation_request req.ObjectType r.RequestID)
          ⟨t + 1, p + 1⟩).world,
        (run env m fuel m (continuation_request req.ObjectType r.RequestID)
          ⟨t + 1, p + 1⟩).result⟩ := by
  simp only [run, hT, hs, startswith_mda]
  simp [hp]

/-! ### Multi-page chain lemmas -/

/-- A chain of `k` `MoreDataAvailable` responses followed by a `Success`
response, with `is_it_time_to_pause()` false throughout: the run dispatches
the `k + 1` responses to the handler in page order, consults the pause
signal at the `k` boundaries, and returns without error. -/
theorem run_success_chain (env : Env) (m : Nat) (rsp : Nat → Response) :
    ∀ (k t p a : Nat) (req : Request),
    (∀ i, i < k → env.transport (t + i) = .resp (rsp (t + i)) ∧
        (rsp (t + i)).OverallStatus = some "MoreDataAvailable") →
    env.transport (t + k) = .resp (rsp (t + k)) →
    (rsp (t + k)).OverallStatus = some "Success" →
    (∀ j, env.pause j = false) →
    run env m (k + 1) a req ⟨t, p⟩ =
      ⟨(List.range (k + 1)).map (fun i => .handler (rsp (t + i))),
        ⟨t + k + 1, p + k⟩, .ok⟩ := by
  intro k
  induction k with
  | zero =>
    intro t p a req _ hTS hSS _
    rw [Nat.add_zero] at hTS hSS
    rw [run_step_terminal env m 0 a t p req (rsp t) "Success" hTS hSS
      startswith_success (by decide)]
    simp [List.range_succ]
  | succ k ih =>
    intro t p a req hMDA hTS hSS hP
    have h0 := hMDA 0 (Nat.succ_pos k)
    rw [Nat.add_zero] at h0
    rw [run_step_continue env m (k + 1) a t p req (rsp t) h0.1 h0.2 (hP p)]
    simp only [ih (t + 1) (p + 1) m
      (continuation_request req.ObjectType (rsp t).RequestID)
      (fun i hi => by
        have h := hMDA (i + 1) (by omega)
        rwa [show t + (i + 1) = t + 1 + i by omega] at h)
      (by rwa [show t + 1 + k = t + (k + 1) by omega])
      (by rwa [show t + 1 + k = t + (k + 1) by omega]) hP]
    have hev : Event.handler (rsp t) ::
        (List.range (k + 1)).map (fun i => Event.handler (rsp (t + 1 + i))) =
        (List.range (k + 1 + 1)).map (fun i => Event.handler (rsp (t + i))) := by
      conv_rhs => rw [List.range_succ_eq_map]
      rw [List.map_cons, List.map_map]
      refine congrArg₂ List.cons ?_ ?_
      · rw [Nat.add_zero]
      refine List.map_congr_left fun i _ => ?_
      simp only [Function.comp_apply]
      congr 2
      omega
    have hw : (⟨t + 1 + k + 1, p + 1 + k⟩ : World) =
        ⟨t + (k + 1) + 1, p + (k + 1)⟩ := by
      simp only [World.mk.injEq]
      exact ⟨by omega, by omega⟩
    rw [hev, hw]

/-- A chain of `k + 1` `MoreDataAvailable` responses with
`is_it_time_to_pause()` false at the first `k` boundaries and true at
boundary `k`: the run dispatches the `k + 1` responses to the handler,
emits exactly one `PausedState` — carrying the object type propagated from
the original request and the `RequestID` of response `k` — and returns
without submitting page `k + 1` (exactly `k + 1` transport calls). -/
theorem run_pause_chain (env : Env) (m : Nat) (rsp : Nat → Response) :
    ∀ (k t p a : Nat) (req : Request),
    (∀ i, i ≤ k → env.transport (t + i) = .resp (rsp (t + i)) ∧
        (rsp (t + i)).OverallStatus = some "MoreDataAvailable") →
    (∀ j, j < k → env.pause (p + j) = false) →
    env.pause (p + k) = true →
    run env m (k + 1) a req ⟨t, p⟩ =
      ⟨((List.range (k + 1)).map (fun i => .handler (rsp (t + i)))) ++
          [.paused ⟨some env.oauthCtx, req.ObjectType, (rsp (t + k)).RequestID⟩],
        ⟨t + k + 1, p + k + 1⟩, .ok⟩ := by
  intro k
  induction k with
  | zero =>
    intro t p a req hMDA _ hPt
    have h0 := hMDA 0 (Nat.le_refl 0)
    rw [Nat.add_zero] at h0
    rw [Nat.add_zero] at hPt
    rw [run_step_pause env m 0 a t p req (rsp t) h0.1 h0.2 hPt]
    simp [List.range_succ]
  | succ k ih =>
    intro t p a req hMDA hPf hPt
    have h0 := hMDA 0 (Nat.zero_le _)
    rw [Nat.add_zero] at h0
    have hp0 : env.pause p = false := by
      have := hPf 0 (Nat.succ_pos k)
      rwa [Nat.add_zero] at this
    rw [run_step_continue env m (k + 1) a t p req (rsp t) h0.1 h0.2 hp0]
    simp only [ih (t + 1) (p + 1) m
      (continuation_request req.ObjectType (rsp t).RequestID)
      (fun i hi => by
        have h := hMDA (i + 1) (by omega)
        rwa [show t + (i + 1) = t + 1 + i by omega] at h)
      (fun j hj => by
        have h := hPf (j + 1) (by omega)
        rwa [show p + (j + 1) = p + 1 + j by omega] at h)
      (by rwa [show p + 1 + k = p + (k + 1) by omega])]
    simp only [continuation_request]
    have hev : Event.handler (rsp t) ::
        ((List.range (k + 1)).map (fun i => Event.handler (rsp (t + 1 + i))) ++
          [Event.paused ⟨some env.oauthCtx, req.ObjectType,
            (rsp (t + 1 + k)).RequestID⟩]) =
        (List.range (k + 1 + 1)).map (fun i => Event.handler (rsp (t + i))) ++
          [Event.paused ⟨some env.oauthCtx, req.ObjectType,
            (rsp (t + (k + 1))).RequestID⟩] := by
      rw [show t + 1 + k = t + (k + 1) by omega]
      conv_rhs => rw [List.range_succ_eq_map]
      rw [List.map_cons, List.map_map, List.cons_append]
      refine congrArg₂ List.cons ?_ ?_
      · rw [Nat.add_zero]
      refine congrArg₂ List.append ?_ rfl
      refine List.map_congr_left fun i _ => ?_
      simp only [Function.comp_apply]
      congr 2
      omega
    have hw : (⟨t + 1 + k + 1, p + 1 + k + 1⟩ : World) =
        ⟨t + (k + 1) + 1, p + (k + 1) + 1⟩ := by
      simp only [World.mk.injEq]
      exact ⟨by omega, by omega⟩
    rw [hev, hw]

/-- `j` consecutive caught transport failures with more than `j` attempts
remaining are absorbed by the retry wrapper: the run continues as a fresh
attempt at transport index `t + j` with `j` fewer attempts, having emitted
no events — in particular the handler is not invoked as part of the
retried work. -/
theorem run_retry_skip (env : Env) (m : Nat) (exc : Nat → PyExc) :
    ∀ (j t p a fuel : Nat) (req : Request), j < a →
    (∀ i, i < j → env.transport (t + i) = .err (exc (t + i)) ∧
        caught_by_transport_handler (exc (t + i)) = true) →
    run env m (fuel + j + 1) a req ⟨t, p⟩ =
      run env m (fuel + 1) (a - j) req ⟨t + j, p⟩ := by
  intro j
  induction j with
  | zero => intro t p a fuel req _ _; rfl
  | succ j ih =>
    intro t p a fuel req hja hE
    have h0 := hE 0 (Nat.succ_pos j)
    rw [Nat.add_zero] at h0
    rw [show fuel + (j + 1) + 1 = (fuel + j + 1) + 1 by omega]
    rw [run_step_retry env m (fuel + j + 1) a t p req (exc t) h0.1 h0.2
      (by omega)]
    rw [ih (t + 1) p (a - 1) fuel req (by omega)
      (fun i hi => by
        have h := hE (i + 1) (by omega)
        rwa [show t + (i + 1) = t + 1 + i by omega] at h)]
    rw [show a - 1 - j = a - (j + 1) by omega,
      show t + 1 + j = t + (j + 1) by omega]

/-- `a` consecutive caught transport failures with an attempt budget of
`a`: the wrapper makes exactly `a` attempts, emits no events, and raises
`tenacity.RetryError` carrying the cause of the last attempt. -/
theorem run_exhaust_chain (env : Env) (m : Nat) (exc : Nat → PyExc)
    (a t p fuel : Nat) (req : Request) (ha : 1 ≤ a)
    (hE : ∀ i, i < a → env.transport (t + i) = .err (exc (t + i)) ∧
        caught_by_transport_handler (exc (t + i)) = true) :
    run env m (fuel + a) a req ⟨t, p⟩ =
      ⟨[], ⟨t + a, p⟩, .error (.retryError (exc (t + a - 1)))⟩ := by
  have hlast := hE (a - 1) (by omega)
  rw [show fuel + a = fuel + (a - 1) + 1 by omega]
  rw [run_retry_skip env m exc (a - 1) t p a fuel req (by omega)
    (fun i hi => hE i (by omega))]
  rw [run_step_exhaust env m fuel (a - (a - 1)) (t + (a - 1)) p req
    (exc (t + (a - 1))) hlast.1 hlast.2 (by omega)]
  rw [show t + (a - 1) + 1 = t + a by omega,
    show t + (a - 1) = t + a - 1 by omega]

/-! ### Trace projection helpers -/

theorem handlerEvents_map_handler {α : Type} (f : α → Response) (l : List α) :
    handlerEvents (l.map (fun i => .handler (f i))) = l.map f := by
  induction l with
  | nil => rfl
  | cons x xs ih => simp [ih]

theorem pausedEvents_map_handler {α : Type} (f : α → Response) (l : List α) :
    pausedEvents (l.map (fun i => .handler (f i))) = [] := by
  induction l with
  | nil => rfl
  | cons x xs ih => simp [ih]

theorem pausedEvents_append (l₁ l₂ : List Event) :
    pausedEvents (l₁ ++ l₂) = pausedEvents l₁ ++ pausedEvents l₂ := by
  simp [pausedEvents, List.filterMap_append]

theorem handlerEvents_append (l₁ l₂ : List Event) :
    handlerEvents (l₁ ++ l₂) = handlerEvents l₁ ++ handlerEvents l₂ := by
  simp [handlerEvents, List.filterMap_append]

/-- Soundness of pause emissions: every `PausedState` an arbitrary run emits
carries, as its continuation token, the `RequestID` of some response whose
`OverallStatus` was exactly `'MoreDataAvailable'` — the only program point
building a pause dict is the `MoreDataAvailable` branch of
`_submit_next_request`. -/
theorem paused_sound (env : Env) (m : Nat) :
    ∀ (fuel a : Nat) (req : Request) (w : World) (ps : PausedState),
    ps ∈ pausedEvents (run env m fuel a req w).events →
    ∃ i r, env.transport i = .resp r ∧
      r.OverallStatus = some "MoreDataAvailable" ∧
      ps.continue_request = r.RequestID := by
  intro fuel
  induction fuel with
  | zero =>
    intro a req w ps h
    simp only [run] at h
    simp at h
  | succ fuel ih =>
    intro a req w ps h
    obtain ⟨t, p⟩ := w
    rcases hT : env.transport t with e | r
    · cases hc : caught_by_transport_handler e with
      | true =>
        by_cases ha : a ≤ 1
        · rw [run_step_exhaust env m fuel a t p req e hT hc ha] at h
          simp at h
        · rw [run_step_retry env m fuel a t p req e hT hc (by omega)] at h
          exact ih (a - 1) req ⟨t + 1, p⟩ ps h
      | false =>
        rw [run_step_uncaught env m fuel a t p req e hT hc] at h
        simp at h
    · rcases hS : r.OverallStatus with _ | st
      · rw [run_step_no_status env m fuel a t p req r hT hS] at h
        simp at h
      · cases he : startswith st "Error" with
        | true =>
          rw [run_step_error_status env m fuel a t p req r st hT hS he] at h
          simp at h
        | false =>
          by_cases hmda : st = "MoreDataAvailable"
          · subst hmda
            cases hp : env.pause p with
            | true =>
              rw [run_step_pause env m fuel a t p req r hT hS hp] at h
              simp only [pausedEvents_handler, pausedEvents_paused,
                pausedEvents_nil, List.mem_singleton] at h
              subst h
              exact ⟨t, r, hT, hS, rfl⟩
            | false =>
              rw [run_step_continue env m fuel a t p req r hT hS hp] at h
              simp only [pausedEvents_handler] at h
              exact ih m (continuation_request req.ObjectType r.RequestID)
                ⟨t + 1, p + 1⟩ ps h
          · rw [run_step_terminal env m fuel a t p req r st hT hS he hmda] at h
            simp at h

/-! ### Claims -/

/-- C1: in a run whose responses are `MoreDataAvailable` N times followed
by `Success`, with `is_it_time_to_pause()` false at every boundary, a
single `submit_request` call invokes the caller-supplied result handler
exactly N + 1 times — once per page, in page order — emits no
`PausedState`, and returns normally. -/
theorem C1_pagination_termination (env : Env) (cfg : Config) (N : Nat)
    (rsp : Nat → Response) (req : Request)
    (hMDA : ∀ i, i < N → env.transport i = .resp (rsp i) ∧
        (rsp i).OverallStatus = some "MoreDataAvailable")
    (hTS : env.transport N = .resp (rsp N))
    (hSS : (rsp N).OverallStatus = some "Success")
    (hP : ∀ j, env.pause j = false) :
    handlerEvents (submit_request env cfg (N + 1) req ⟨0, 0⟩).events =
      (List.range (N + 1)).map rsp ∧
    pausedEvents (submit_request env cfg (N + 1) req ⟨0, 0⟩).events = [] ∧
    (submit_request env cfg (N + 1) req ⟨0, 0⟩).result = .ok := by
  have hrun := run_success_chain env cfg.max_retries rsp N 0 0 cfg.max_retries
    req (fun i hi => by simpa using hMDA i hi)
    (by simpa using hTS) (by simpa using hSS) hP
  rw [submit_request, hrun]
  simp only [Nat.zero_add]
  exact ⟨handlerEvents_map_handler rsp _, pausedEvents_map_handler rsp _, trivial⟩

/-- Shared concrete fixture: the initial request for a `Send` retrieval. -/
def reqW : Request := ⟨"Send", ["Status", "ID"], none, none⟩

/-- Concrete response script for the C1 witness: two `MoreDataAvailable`
pages, then `Success`. -/
def rspC1 : Nat → Response := fun i =>
  if i < 2 then ⟨some "MoreDataAvailable", "T"⟩ else ⟨some "Success", "TS"⟩

/-- Concrete environment for the C1 witness: no failures, never pause. -/
def envC1 : Env := ⟨fun i => .resp (rspC1 i), fun _ => false, "blob"⟩

theorem C1_pagination_termination_witness :
    handlerEvents (submit_request envC1 ⟨3⟩ 3 reqW ⟨0, 0⟩).events =
      [⟨some "MoreDataAvailable", "T"⟩, ⟨some "MoreDataAvailable", "T"⟩,
        ⟨some "Success", "TS"⟩] ∧
    pausedEvents (submit_request envC1 ⟨3⟩ 3 reqW ⟨0, 0⟩).events = [] ∧
    (submit_request envC1 ⟨3⟩ 3 reqW ⟨0, 0⟩).result = .ok := by
  have h := C1_pagination_termination envC1 ⟨3⟩ 2 rspC1 reqW
    (fun i hi => ⟨rfl, by
      match i, hi with
      | 0, _ => decide
      | 1, _ => decide⟩)
    rfl (by decide) (fun j => rfl)
  exact ⟨h.1.trans (by decide), h.2.1, h.2.2⟩

/-- C2: when every response through page k is `MoreDataAvailable`,
`is_it_time_to_pause()` is false at the first k boundaries and true at
boundary k, exactly one `PausedState` is emitted; its continuation token is
the `RequestID` of response k, its object type is the current request's
object type, and no submission for page k + 1 occurs (exactly k + 1
transport calls in the run). -/
theorem C2_pause_fidelity (env : Env) (cfg : Config) (k : Nat)
    (rsp : Nat → Response) (req : Request)
    (hMDA : ∀ i, i ≤ k → env.transport i = .resp (rsp i) ∧
        (rsp i).OverallStatus = some "MoreDataAvailable")
    (hPf : ∀ j, j < k → env.pause j = false)
    (hPt : env.pause k = true) :
    pausedEvents (submit_request env cfg (k + 1) req ⟨0, 0⟩).events =
      [⟨some env.oauthCtx, req.ObjectType, (rsp k).RequestID⟩] ∧
    (submit_request env cfg (k + 1) req ⟨0, 0⟩).world.t = k + 1 ∧
    (submit_request env cfg (k + 1) req ⟨0, 0⟩).result = .ok := by
  have hrun := run_pause_chain env cfg.max_retries rsp k 0 0 cfg.max_retries
    req (fun i hi => by simpa using hMDA i hi)
    (fun j hj => by simpa using hPf j hj) (by simpa using hPt)
  rw [submit_request, hrun]
  simp only [Nat.zero_add]
  refine ⟨?_, trivial, trivial⟩
  rw [pausedEvents_append, pausedEvents_map_handler]
  rfl

/-- Concrete response script for the C2 witness: every page says
`MoreDataAvailable` with token `"T"`. -/
def rspC2 : Nat → Response := fun _ => ⟨some "MoreDataAvailable", "T"⟩

/-- Concrete environment for the C2 witness: pause exactly at boundary 1. -/
def envC2 : Env := ⟨fun i => .resp (rspC2 i), fun j => j == 1, "blob"⟩

theorem C2_pause_fidelity_witness :
    pausedEvents (submit_request envC2 ⟨3⟩ 2 reqW ⟨0, 0⟩).events =
      [⟨some "blob", "Send", "T"⟩] ∧
    (submit_request envC2 ⟨3⟩ 2 reqW ⟨0, 0⟩).world.t = 2 ∧
    (submit_request envC2 ⟨3⟩ 2 reqW ⟨0, 0⟩).result = .ok := by
  have h := C2_pause_fidelity envC2 ⟨3⟩ 1 rspC2 reqW
    (fun i _ => ⟨rfl, rfl⟩)
    (fun j hj => by match j, hj with | 0, _ => rfl)
    rfl
  exact ⟨h.1.trans (by decide), h.2.1, h.2.2⟩

/-- C3: the retry wrapper re-runs only the failed transport attempt. In a
run where page 0 returns `MoreDataAvailable` and page 1's submission fails
transiently j times before succeeding (j below the attempt budget), the
handler receives each page exactly once — nothing is re-dispatched as part
of the retried work — and the total number of transport calls is j + 2:
page 0 is fetched once and only page 1's fetch is repeated. -/
theorem C3_retry_scope (env : Env) (cfg : Config) (j : Nat)
    (exc : Nat → PyExc) (r0 r1 : Response) (req : Request)
    (h0 : env.transport 0 = .resp r0)
    (h0s : r0.OverallStatus = some "MoreDataAvailable")
    (hE : ∀ i, i < j → env.transport (1 + i) = .err (exc (1 + i)) ∧
        caught_by_transport_handler (exc (1 + i)) = true)
    (h1 : env.transport (1 + j) = .resp r1)
    (h1s : r1.OverallStatus = some "Success")
    (hP : ∀ p, env.pause p = false)
    (hja : j < cfg.max_retries) :
    handlerEvents (submit_request env cfg (j + 2) req ⟨0, 0⟩).events =
      [r0, r1] ∧
    (submit_request env cfg (j + 2) req ⟨0, 0⟩).world.t = j + 2 ∧
    (submit_request env cfg (j + 2) req ⟨0, 0⟩).result = .ok := by
  rw [submit_request, show j + 2 = (j + 1) + 1 by omega,
    run_step_continue env cfg.max_retries (j + 1) cfg.max_retries 0 0 req r0
      h0 h0s (hP 0)]
  simp only [Nat.zero_add]
  have hskip := run_retry_skip env cfg.max_retries exc j 1 1 cfg.max_retries 0
    (continuation_request req.ObjectType r0.RequestID) hja hE
  simp only [Nat.zero_add] at hskip
  rw [hskip]
  have hterm := run_step_terminal env cfg.max_retries 0 (cfg.max_retries - j)
    (1 + j) 1 (continuation_request req.ObjectType r0.RequestID) r1 "Success"
    h1 h1s startswith_success (by decide)
  simp only [Nat.zero_add] at hterm
  rw [hterm]
  refine ⟨rfl, ?_, rfl⟩
  show 1 + j + 1 = j + 2
  omega

/-- Concrete environment for the C3 witness: page 0 `MoreDataAvailable`,
one transient failure, then `Success`. -/
def envC3 : Env :=
  ⟨fun i => if i = 1 then .err .clientConnectionError
    else if i = 0 then .resp ⟨some "MoreDataAvailable", "T"⟩
    else .resp ⟨some "Success", "TS"⟩, fun _ => false, "blob"⟩

theorem C3_retry_scope_witness :
    handlerEvents (submit_request envC3 ⟨2⟩ 3 reqW ⟨0, 0⟩).events =
      [⟨some "MoreDataAvailable", "T"⟩, ⟨some "Success", "TS"⟩] ∧
    (submit_request envC3 ⟨2⟩ 3 reqW ⟨0, 0⟩).world.t = 3 ∧
    (submit_request envC3 ⟨2⟩ 3 reqW ⟨0, 0⟩).result = .ok := by
  exact C3_retry_scope envC3 ⟨2⟩ 1 (fun _ => .clientConnectionError)
    ⟨some "MoreDataAvailable", "T"⟩ ⟨some "Success", "TS"⟩ reqW
    (by decide) (by decide)
    (fun i hi => by
      match i, hi with
      | 0, _ => exact ⟨by decide, by decide⟩)
    (by decide) (by decide) (fun p => rfl) (by decide)

/-- C4 (amended): when every one of the `max_retries` allowed attempts for
a page fails with a caught transport exception, `submit_request` makes
exactly `max_retries` transport calls, never invokes the handler, and
surfaces a terminal retry-exhaustion error (tenacity's `RetryError`)
wrapping the last transient failure. -/
theorem C4_retry_exhaustion (env : Env) (cfg : Config) (exc : Nat → PyExc)
    (req : Request) (hM : 1 ≤ cfg.max_retries)
    (hE : ∀ i, i < cfg.max_retries → env.transport i = .err (exc i) ∧
        caught_by_transport_handler (exc i) = true) :
    submit_request env cfg cfg.max_retries req ⟨0, 0⟩ =
      ⟨[], ⟨cfg.max_retries, 0⟩,
        .error (.retryError (exc (cfg.max_retries - 1)))⟩ := by
  rw [submit_request]
  have h := run_exhaust_chain env cfg.max_retries exc cfg.max_retries 0 0 0
    req hM (fun i hi => by simpa using hE i hi)
  simpa using h

/-- Concrete environment for C4: every transport call fails with a caught
exception; the second (last) attempt's cause differs from the first. -/
def envC4 : Env :=
  ⟨fun i => .err (if i = 0 then .serverTimeoutError else .clientError),
    fun _ => false, "blob"⟩

theorem C4_retry_exhaustion_witness :
    submit_request envC4 ⟨2⟩ 2 reqW ⟨0, 0⟩ =
      ⟨[], ⟨2, 0⟩, .error (.retryError .clientError)⟩ := by
  exact C4_retry_exhaustion envC4 ⟨2⟩
    (fun i => if i = 0 then .serverTimeoutError else .clientError) reqW
    (by decide)
    (fun i hi => by
      match i, hi with
      | 0, _ => exact ⟨rfl, by decide⟩
      | 1, _ => exact ⟨rfl, by decide⟩)

/-- C4 (counterexample to the claim as stated): with a configured maximum
of 2 attempts and 2 consecutive transient failures, the error surfaced to
the caller of `submit_request` is not the transient-failure kind
(`IngestServiceException`, the claim's TransientServiceError): tenacity's
default `reraise=False` raises a `RetryError` wrapping the last
`IngestServiceException` instead.  The handler part of the claim does
hold: no handler invocation occurs. -/
theorem C4_retry_exhaustion_counterexample :
    isServiceFail (submit_request envC4 ⟨2⟩ 2 reqW ⟨0, 0⟩).result = false ∧
    (submit_request envC4 ⟨2⟩ 2 reqW ⟨0, 0⟩).result =
      .error (.retryError .clientError) ∧
    handlerEvents (submit_request envC4 ⟨2⟩ 2 reqW ⟨0, 0⟩).events = [] := by
  decide

/-- C5: a response with no `OverallStatus` key fails with the
invalid-response-shape error, and a response whose status starts with
`'Error'` fails with a data error carrying the status text; both are
raised as the non-retryable `IngestDataRetrieveException`, the run makes
exactly one transport call whatever the configured attempt budget (zero
retries), and the handler is not invoked. -/
theorem C5_nonretryable_response_errors (env : Env) (cfg : Config)
    (fuel : Nat) (req : Request) (r : Response) (st : String)
    (hT : env.transport 0 = .resp r) :
    (r.OverallStatus = none →
      submit_request env cfg (fuel + 1) req ⟨0, 0⟩ =
        ⟨[], ⟨1, 0⟩, .error (.dataRetrieve "Invalid Response")⟩) ∧
    (r.OverallStatus = some st → startswith st "Error" = true →
      submit_request env cfg (fuel + 1) req ⟨0, 0⟩ =
        ⟨[], ⟨1, 0⟩,
          .error (.dataRetrieve ("Status Error in Response " ++ st))⟩) := by
  constructor
  · intro hs
    rw [submit_request]
    have h := run_step_no_status env cfg.max_retries fuel cfg.max_retries
      0 0 req r hT hs
    simpa using h
  · intro hs he
    rw [submit_request]
    have h := run_step_error_status env cfg.max_retries fuel cfg.max_retries
      0 0 req r st hT hs he
    simpa using h

/-- Concrete environment for C5: the response has no `OverallStatus`. -/
def envC5a : Env := ⟨fun _ => .resp ⟨none, "x"⟩, fun _ => false, "blob"⟩

/-- Concrete environment for C5: the response status is an error text. -/
def envC5b : Env :=
  ⟨fun _ => .resp ⟨some "Error: Invalid ObjectType", "x"⟩, fun _ => false,
    "blob"⟩

theorem C5_nonretryable_response_errors_witness :
    submit_request envC5a ⟨3⟩ 1 reqW ⟨0, 0⟩ =
      ⟨[], ⟨1, 0⟩, .error (.dataRetrieve "Invalid Response")⟩ ∧
    submit_request envC5b ⟨3⟩ 1 reqW ⟨0, 0⟩ =
      ⟨[], ⟨1, 0⟩, .error (.dataRetrieve
        "Status Error in Response Error: Invalid ObjectType")⟩ := by
  constructor
  · exact (C5_nonretryable_response_errors envC5a ⟨3⟩ 0 reqW ⟨none, "x"⟩ ""
      rfl).1 rfl
  · exact ((C5_nonretryable_response_errors envC5b ⟨3⟩ 0 reqW
      ⟨some "Error: Invalid ObjectType", "x"⟩ "Error: Invalid ObjectType"
      rfl).2 rfl (by decide)).trans (by decide)

/-- C6: `resume_request` rebuilds a request holding exactly the paused
object type and continuation token — with no properties and no filter, so
the original date-range filter is never re-applied — and submits it; when
the first response is `Success`, the resumed run dispatches the handler
once and returns after that single transport call without consulting the
pause signal (no further recursion). -/
theorem C6_resume_correctness (env : Env) (cfg : Config) (fuel : Nat)
    (paused : PausedState) (r : Response)
    (hT : env.transport 0 = .resp r)
    (hS : r.OverallStatus = some "Success") :
    (resume_rebuild paused).ObjectType = paused.object_type ∧
    (resume_rebuild paused).ContinueRequest = some paused.continue_request ∧
    (resume_rebuild paused).Filter = none ∧
    (resume_rebuild paused).Properties = [] ∧
    resume_request env cfg (fuel + 1) paused ⟨0, 0⟩ =
      submit_request env cfg (fuel + 1) (resume_rebuild paused) ⟨0, 0⟩ ∧
    resume_request env cfg (fuel + 1) paused ⟨0, 0⟩ =
      ⟨[.handler r], ⟨1, 0⟩, .ok⟩ := by
  refine ⟨rfl, rfl, rfl, rfl, rfl, ?_⟩
  rw [resume_request, submit_request]
  have h := run_step_terminal env cfg.max_retries fuel cfg.max_retries 0 0
    (resume_rebuild paused) r "Success" hT hS startswith_success (by decide)
  simpa using h

/-- Concrete environment for C6: a single `Success` response. -/
def envC6 : Env :=
  ⟨fun _ => .resp ⟨some "Success", "x"⟩, fun _ => false, "blob"⟩

/-- Concrete paused state for C6. -/
def pausedW : PausedState := ⟨some "blob", "Send", "CONT"⟩

theorem C6_resume_correctness_witness :
    (resume_rebuild pausedW).ObjectType = "Send" ∧
    (resume_rebuild pausedW).ContinueRequest = some "CONT" ∧
    (resume_rebuild pausedW).Filter = none ∧
    (resume_rebuild pausedW).Properties = [] ∧
    resume_request envC6 ⟨3⟩ 1 pausedW ⟨0, 0⟩ =
      submit_request envC6 ⟨3⟩ 1 (resume_rebuild pausedW) ⟨0, 0⟩ ∧
    resume_request envC6 ⟨3⟩ 1 pausedW ⟨0, 0⟩ =
      ⟨[.handler ⟨some "Success", "x"⟩], ⟨1, 0⟩, .ok⟩ := by
  have h := C6_resume_correctness envC6 ⟨3⟩ 0 pausedW ⟨some "Success", "x"⟩
    rfl rfl
  exact ⟨h.1.trans (by decide), h.2.1.trans (by decide), h.2.2.1,
    h.2.2.2.1, h.2.2.2.2.1, h.2.2.2.2.2⟩

/-- C7: the exception types listed in the `except` clause are re-signalled
as the distinct transient kind (`IngestServiceException`), which the retry
wrapper recognizes — after such a failure the run proceeds with a fresh
attempt; any other exception propagates unmodified and aborts the call
after a single transport call with no handler invocation and no retry. -/
theorem C7_transport_error_classification (env : Env) (cfg : Config)
    (fuel : Nat) (e : PyExc) (req : Request) (r : Response)
    (hT0 : env.transport 0 = .err e)
    (hT1 : env.transport 1 = .resp r)
    (hS : r.OverallStatus = some "Success")
    (hm : 2 ≤ cfg.max_retries) :
    caught_by_transport_handler .clientResponseError = true ∧
    caught_by_transport_handler .clientConnectionError = true ∧
    caught_by_transport_handler .serverTimeoutError = true ∧
    caught_by_transport_handler .clientError = true ∧
    caught_by_transport_handler .asyncioTimeoutError = true ∧
    (∀ s, caught_by_transport_handler (.other s) = false) ∧
    (caught_by_transport_handler e = true →
      classify_transport_error e = .serviceFail e ∧
      submit_request env cfg (fuel + 2) req ⟨0, 0⟩ =
        ⟨[.handler r], ⟨2, 0⟩, .ok⟩) ∧
    (caught_by_transport_handler e = false →
      classify_transport_error e = .uncaught e ∧
      submit_request env cfg (fuel + 2) req ⟨0, 0⟩ =
        ⟨[], ⟨1, 0⟩, .error (.uncaught e)⟩) := by
  refine ⟨rfl, rfl, rfl, rfl, rfl, fun s => rfl, ?_, ?_⟩
  · intro hc
    refine ⟨by simp [classify_transport_error, hc], ?_⟩
    rw [submit_request, show fuel + 2 = (fuel + 1) + 1 by omega,
      run_step_retry env cfg.max_retries (fuel + 1) cfg.max_retries 0 0 req e
        hT0 hc (by omega)]
    have h := run_step_terminal env cfg.max_retries fuel
      (cfg.max_retries - 1) 1 0 req r "Success" hT1 hS startswith_success
      (by decide)
    simpa using h
  · intro hc
    refine ⟨by simp [classify_transport_error, hc], ?_⟩
    rw [submit_request, show fuel + 2 = (fuel + 1) + 1 by omega]
    have h := run_step_uncaught env cfg.max_retries (fuel + 1)
      cfg.max_retries 0 0 req e hT0 hc
    simpa using h

/-- Concrete environment for C7: a caught transport failure, then
`Success`. -/
def envC7a : Env :=
  ⟨fun i => if i = 0 then .err .clientError
    else .resp ⟨some "Success", "x"⟩, fun _ => false, "blob"⟩

/-- Concrete environment for C7: an exception outside the `except` list. -/
def envC7b : Env :=
  ⟨fun i => if i = 0 then .err (.other "ValueError")
    else .resp ⟨some "Success", "x"⟩, fun _ => false, "blob"⟩

theorem C7_transport_error_classification_witness :
    submit_request envC7a ⟨2⟩ 2 reqW ⟨0, 0⟩ =
      ⟨[.handler ⟨some "Success", "x"⟩], ⟨2, 0⟩, .ok⟩ ∧
    submit_request envC7b ⟨2⟩ 2 reqW ⟨0, 0⟩ =
      ⟨[], ⟨1, 0⟩, .error (.uncaught (.other "ValueError"))⟩ := by
  constructor
  · exact ((C7_transport_error_classification envC7a ⟨2⟩ 0 .clientError reqW
      ⟨some "Success", "x"⟩ rfl rfl rfl (by decide)).2.2.2.2.2.2.1 rfl).2
  · exact ((C7_transport_error_classification envC7b ⟨2⟩ 0
      (.other "ValueError") reqW ⟨some "Success", "x"⟩ rfl rfl rfl
      (by decide)).2.2.2.2.2.2.2 rfl).2

/-- C8: `build_common_request` defaults a missing or non-`datetime` start
to the epoch origin and a missing or non-`datetime` end to the current UTC
time; a truthy (non-empty) `filter_date_field` attaches a `between` range
filter on that field over `[start, end]`, while an empty or `None` field
attaches no filter; object type and properties pass through. -/
theorem C8_build_common_request (now : Int) (ot : String)
    (props : List String) (s e : PyVal) (fd : String) (hfd : fd ≠ "") :
    (build_common_request now ot props s e (some fd)).Filter =
      some ⟨fd, "between", coerce_start s, coerce_end now e⟩ ∧
    ((s = .noneV ∨ s = .notDatetime) → coerce_start s = epoch_origin) ∧
    ((e = .noneV ∨ e = .notDatetime) → coerce_end now e = now) ∧
    (build_common_request now ot props s e (some "")).Filter = none ∧
    (build_common_request now ot props s e none).Filter = none ∧
    (build_common_request now ot props s e (some fd)).ObjectType = ot ∧
    (build_common_request now ot props s e (some fd)).Properties = props := by
  refine ⟨?_, ?_, ?_, by simp [build_common_request], rfl, rfl, rfl⟩
  · simp [build_common_request, hfd]
  · rintro (h | h) <;> subst h <;> rfl
  · rintro (h | h) <;> subst h <;> rfl

theorem C8_build_common_request_witness :
    (build_common_request 1000 "Send" ["ID"] .noneV .notDatetime
        (some "ModifiedDate")).Filter =
      some ⟨"ModifiedDate", "between", 0, 1000⟩ ∧
    coerce_start .noneV = epoch_origin ∧
    coerce_end 1000 .notDatetime = 1000 ∧
    (build_common_request 1000 "Send" ["ID"] .noneV .notDatetime
        (some "")).Filter = none ∧
    (build_common_request 1000 "Send" ["ID"] .noneV .notDatetime
        none).Filter = none := by
  have h := C8_build_common_request 1000 "Send" ["ID"] .noneV .notDatetime
    "ModifiedDate" (by decide)
  exact ⟨h.1.trans (by decide), h.2.1 (Or.inl rfl), h.2.2.1 (Or.inr rfl),
    h.2.2.2.1, h.2.2.2.2.1⟩

/-- C9: every `PausedState` emitted in any run originates from a boundary
whose response had status exactly `'MoreDataAvailable'`: its continuation
token is that response's `RequestID`.  Under the service-contract
assumption that `MoreDataAvailable` responses carry a non-empty
`RequestID`, every stored continuation token is therefore non-empty. -/
theorem C9_paused_state_invariant (env : Env) (cfg : Config) (fuel : Nat)
    (req : Request) (w : World)
    (hne : ∀ i r, env.transport i = .resp r →
      r.OverallStatus = some "MoreDataAvailable" → r.RequestID ≠ "") :
    ∀ ps ∈ pausedEvents (submit_request env cfg fuel req w).events,
      (∃ i r, env.transport i = .resp r ∧
        r.OverallStatus = some "MoreDataAvailable" ∧
        ps.continue_request = r.RequestID) ∧
      ps.continue_request ≠ "" := by
  intro ps hps
  obtain ⟨i, r, h1, h2, h3⟩ := paused_sound env cfg.max_retries fuel
    cfg.max_retries req w ps hps
  refine ⟨⟨i, r, h1, h2, h3⟩, ?_⟩
  rw [h3]
  exact hne i r h1 h2

/-- Concrete environment for C9: every response is `MoreDataAvailable`
with token `"T0"`, and the budget signal always says pause. -/
def envC9 : Env :=
  ⟨fun _ => .resp ⟨some "MoreDataAvailable", "T0"⟩, fun _ => true, "blob"⟩

theorem C9_paused_state_invariant_witness :
    (∃ i r, envC9.transport i = .resp r ∧
      r.OverallStatus = some "MoreDataAvailable" ∧
      (⟨some "blob", "Send", "T0"⟩ : PausedState).continue_request =
        r.RequestID) ∧
    (⟨some "blob", "Send", "T0"⟩ : PausedState).continue_request ≠ "" := by
  refine C9_paused_state_invariant envC9 ⟨3⟩ 1 reqW ⟨0, 0⟩ ?_
    ⟨some "blob", "Send", "T0"⟩ ?_
  · intro i r h1 h2
    simp only [envC9] at h1
    injection h1 with h
    subst h
    decide
  · decide

/-- C10: a response whose status is present, does not start with
`'Error'`, and is not exactly `'MoreDataAvailable'` is terminal: the
handler is invoked exactly once for it and the run ends after that single
transport call without ever consulting the pause signal — pagination
recursion happens only for the exact status string `'MoreDataAvailable'`. -/
theorem C10_non_mda_status_terminal (env : Env) (cfg : Config) (fuel : Nat)
    (req : Request) (r : Response) (st : String)
    (hT : env.transport 0 = .resp r) (hS : r.OverallStatus = some st)
    (he : startswith st "Error" = false) (hm : st ≠ "MoreDataAvailable") :
    submit_request env cfg (fuel + 1) req ⟨0, 0⟩ =
      ⟨[.handler r], ⟨1, 0⟩, .ok⟩ := by
  rw [submit_request]
  have h := run_step_terminal env cfg.max_retries fuel cfg.max_retries 0 0
    req r st hT hS he hm
  simpa using h

/-- Concrete environment for C10: a response with the unusual status
`"Banana"`. -/
def envC10 : Env :=
  ⟨fun _ => .resp ⟨some "Banana", "x"⟩, fun _ => false, "blob"⟩

theorem C10_non_mda_status_terminal_witness :
    submit_request envC10 ⟨3⟩ 1 reqW ⟨0, 0⟩ =
      ⟨[.handler ⟨some "Banana", "x"⟩], ⟨1, 0⟩, .ok⟩ := by
  exact C10_non_mda_status_terminal envC10 ⟨3⟩ 0 reqW ⟨some "Banana", "x"⟩
    "Banana" rfl rfl (by decide) (by decide)
